import Mathlib

/-!
Verification of the command-dispatch core of `joy.py` (Joy, a DJI Tello
joystick controller).  The Python source is shallowly embedded: the mutable
`JoystickController` object becomes an explicit `CtrlState` record threaded
through pure functions, the `collections.deque` command queue becomes a
`List String` with producers appending at the right end, and the two loop
bodies (`_receive_command_loop`, `_send_command_loop`) become step functions
on that state.  Python exception flow is made explicit in the step results:
each outcome constructor records which handler (if any) absorbed the
exception raised at that point of the body.
-/

namespace Joy

/-- Embeds `self._AXIS_DEAD = 2500` from `JoystickController.__init__`. -/
def AXIS_DEAD : Int := 2500

/-- Embeds `self._AXIS_MAX_VAL = 32767` from `JoystickController.__init__`. -/
def AXIS_MAX_VAL : Int := 32767

/-- Embeds `self._axis_state`, the dict with keys roll, quota, yaw, pitch. -/
structure AxisState where
  roll : Int
  quota : Int
  yaw : Int
  pitch : Int
deriving Repr, DecidableEq

/-- The spec invariant on `AxisState`: every axis value is a signed integer
percentage in the interval from -100 to 100. -/
@[reducible]
def axis_inv (a : AxisState) : Prop :=
  -100 ≤ a.roll ∧ a.roll ≤ 100 ∧ -100 ≤ a.quota ∧ a.quota ≤ 100 ∧
  -100 ≤ a.yaw ∧ a.yaw ≤ 100 ∧ -100 ≤ a.pitch ∧ a.pitch ≤ 100

/-- Embeds `int(raw_val * 100 / self._AXIS_MAX_VAL)` from the `_set_*`
handlers.  Python evaluates `raw_val * 100 / 32767` in floating point and
`int(...)` truncates toward zero; for `raw_val` in the hardware range the
float division is never within float error of a wrong integer boundary
(the quotient is an exact integer only at 0 and at multiples of 32767),
so the result equals exact integer division truncated toward zero, which
is `Int.tdiv`. -/
def normalize (raw : Int) : Int := (raw * 100).tdiv AXIS_MAX_VAL

/-- Modelled from the spec words for comparison with the code: the
normalization formula written in section 4.1, `round(rawValue * 100 /
AXIS_MAX)`, as exact rounding of the rational quotient. -/
def spec_round_normalize (raw : Int) : Int :=
  round (((raw * 100 : Int) : ℚ) / ((AXIS_MAX_VAL : Int) : ℚ))

/-- Truncation toward zero of the exact rational quotient
`raw * 100 / AXIS_MAX`: the floor for a nonnegative argument, the ceiling
for a negative one.  This is what Python `int()` computes; it is the
amended normalization formula. -/
def spec_trunc_normalize (raw : Int) : Int :=
  if 0 ≤ raw then ⌊((raw * 100 : Int) : ℚ) / ((AXIS_MAX_VAL : Int) : ℚ)⌋
  else ⌈((raw * 100 : Int) : ℚ) / ((AXIS_MAX_VAL : Int) : ℚ)⌉

/-- The controller state visible to the claims: the shared axis-state dict
and the shared command deque.  The deque is a list whose right end is where
`append` adds elements. -/
structure CtrlState where
  axis_state : AxisState
  command_queue : List String
deriving Repr, DecidableEq

/-- The state right after `JoystickController.__init__`: all axes zero and
an empty command queue. -/
def init_state : CtrlState :=
  { axis_state := { roll := 0, quota := 0, yaw := 0, pitch := 0 },
    command_queue := [] }

/-- Embeds `self._command_queue.append(cmd)`: `collections.deque.append`
adds at the right end. -/
def queue_append (cmd : String) (s : CtrlState) : CtrlState :=
  { s with command_queue := s.command_queue ++ [cmd] }

/-- Embeds `self._command_queue.pop()`: `collections.deque.pop` removes and
returns the element at the RIGHT end, the same end `append` adds to; on an
empty deque it raises IndexError, modelled as `none`. -/
def queue_pop (q : List String) : Option (String × List String) :=
  match q.getLast? with
  | none => none
  | some c => some (c, q.dropLast)

/-- Embeds the f-string of `_dispatch_axis_update`:
`rc {roll} {pitch} {quota} {yaw}`. -/
def rc_command (a : AxisState) : String :=
  "rc " ++ toString a.roll ++ " " ++ toString a.pitch ++ " " ++
    toString a.quota ++ " " ++ toString a.yaw

/-- Embeds `_dispatch_axis_update`: append an `rc` command built from the
full current axis state. -/
def dispatch_axis_update (s : CtrlState) : CtrlState :=
  queue_append (rc_command s.axis_state) s

/-- Embeds `_land(force)`: when `force` is true the queue is cleared first,
then a land command is appended. -/
def land (force : Bool) (s : CtrlState) : CtrlState :=
  let s1 := if force then { s with command_queue := [] } else s
  queue_append ("land") s1

/-- Embeds `_emergency_land`: clear the queue, then append emergency. -/
def emergency_land (s : CtrlState) : CtrlState :=
  queue_append ("emergency") { s with command_queue := [] }

/-- Embeds `_takeoff`. -/
def takeoff (s : CtrlState) : CtrlState :=
  queue_append ("takeoff") s

/-- Embeds `_command`. -/
def command (s : CtrlState) : CtrlState :=
  queue_append ("command") s

/-- Embeds `_set_roll`: normalize, and only on change store the value and
dispatch an rc update. -/
def set_roll (raw : Int) (s : CtrlState) : CtrlState :=
  let val := normalize raw
  if s.axis_state.roll ≠ val then
    dispatch_axis_update { s with axis_state := { s.axis_state with roll := val } }
  else s

/-- Embeds `_set_quota`: the sign of the normalized value is inverted. -/
def set_quota (raw : Int) (s : CtrlState) : CtrlState :=
  let val := -(normalize raw)
  if s.axis_state.quota ≠ val then
    dispatch_axis_update { s with axis_state := { s.axis_state with quota := val } }
  else s

/-- Embeds `_set_yaw`. -/
def set_yaw (raw : Int) (s : CtrlState) : CtrlState :=
  let val := normalize raw
  if s.axis_state.yaw ≠ val then
    dispatch_axis_update { s with axis_state := { s.axis_state with yaw := val } }
  else s

/-- Embeds `_set_pitch`: the sign of the normalized value is inverted. -/
def set_pitch (raw : Int) (s : CtrlState) : CtrlState :=
  let val := -(normalize raw)
  if s.axis_state.pitch ≠ val then
    dispatch_axis_update { s with axis_state := { s.axis_state with pitch := val } }
  else s

/-- Embeds the tail of `JoystickController.run` after the supervisory loop
returns: `self._command_queue.clear()` followed by `self._land()` with the
default `force=False`. -/
def run_shutdown (s : CtrlState) : CtrlState :=
  land false { s with command_queue := [] }

/-- Embeds `self._button_map`, a 10-tuple indexed by the hardware button
index. -/
def button_map : List String :=
  ["A", "B", "X", "Y", "LB", "RB", "SELECT", "START", "JL", "JR"]

/-- Embeds `self._axis_map`, a 6-tuple indexed by the hardware axis
index. -/
def axis_map : List String :=
  ["LEFT_X", "LEFT_Y", "LT", "RIGHT_X", "RIGHT_Y", "RT"]

/-- Tags for the callables stored in `self._event_map`; the first four take
no argument, the last four take the raw axis value. -/
inductive Action where
  | land_act
  | takeoff_act
  | emergency_act
  | command_act
  | roll_act
  | pitch_act
  | yaw_act
  | quota_act
deriving Repr, DecidableEq

/-- Embeds `self._event_map`; a name that is not a key (such as B, X, LB,
RB, JL, JR, LT, RT) gives `none`, which in Python is a KeyError. -/
def event_map (name : String) : Option Action :=
  if name = "SELECT" then some Action.land_act
  else if name = "START" then some Action.takeoff_act
  else if name = "A" then some Action.emergency_act
  else if name = "Y" then some Action.command_act
  else if name = "LEFT_X" then some Action.roll_act
  else if name = "LEFT_Y" then some Action.pitch_act
  else if name = "RIGHT_X" then some Action.yaw_act
  else if name = "RIGHT_Y" then some Action.quota_act
  else none

/-- The joystick events the dispatch loop distinguishes. -/
inductive SDLEvent where
  | buttonDown (idx : Nat)
  | axisMotion (idx : Nat) (value : Int)
  | other
deriving Repr, DecidableEq

/-- Outcome of one event in `_receive_command_loop`.  `dispatched`: a
handler ran.  `ignored`: nothing ran, either because the dead-zone guard
suppressed the event, the event type is not handled, or the `except
KeyError` clause absorbed a missing `_event_map` key.  `fatal`: an
exception other than KeyError escaped the `try` block, terminating the
dispatch loop (in particular the IndexError from indexing the
`_button_map` or `_axis_map` tuple out of range). -/
inductive RecvOutcome where
  | dispatched
  | ignored
  | fatal
deriving Repr, DecidableEq

/-- Embeds the body of `_receive_command_loop` for one event, with Python
exception flow explicit.  Tuple indexing out of range raises IndexError,
which `except KeyError` does not catch, hence `fatal`; a dict lookup miss
raises KeyError, which is caught, hence `ignored`.  The dead-zone guard is
checked before the axis-map lookup, so a sub-threshold event never touches
the maps.  A handler of the wrong arity would raise TypeError (uncaught,
`fatal`); this branch is unreachable from the fixed maps. -/
def handle_event (ev : SDLEvent) (s : CtrlState) : CtrlState × RecvOutcome :=
  match ev with
  | SDLEvent.buttonDown idx =>
    match button_map[idx]? with
    | none => (s, RecvOutcome.fatal)
    | some name =>
      match event_map name with
      | none => (s, RecvOutcome.ignored)
      | some Action.land_act => (land false s, RecvOutcome.dispatched)
      | some Action.takeoff_act => (takeoff s, RecvOutcome.dispatched)
      | some Action.emergency_act => (emergency_land s, RecvOutcome.dispatched)
      | some Action.command_act => (command s, RecvOutcome.dispatched)
      | some _ => (s, RecvOutcome.fatal)
  | SDLEvent.axisMotion idx value =>
    if AXIS_DEAD < |value| then
      match axis_map[idx]? with
      | none => (s, RecvOutcome.fatal)
      | some name =>
        match event_map name with
        | none => (s, RecvOutcome.ignored)
        | some Action.roll_act => (set_roll value s, RecvOutcome.dispatched)
        | some Action.pitch_act => (set_pitch value s, RecvOutcome.dispatched)
        | some Action.yaw_act => (set_yaw value s, RecvOutcome.dispatched)
        | some Action.quota_act => (set_quota value s, RecvOutcome.dispatched)
        | some _ => (s, RecvOutcome.fatal)
    else (s, RecvOutcome.ignored)
  | SDLEvent.other => (s, RecvOutcome.ignored)

/-- What the network exchange `sendrecv.sr1(...)` can yield for one
command.  `timeout`: `sr1` returned None (no reply within 0.2 s).
`replyNoRaw`: a reply packet with no Raw payload layer.  `replyRaw none`:
a Raw payload whose bytes do not decode as text.  `replyRaw (some txt)`:
a Raw payload decoding to `txt`. -/
inductive NetReply where
  | timeout
  | replyNoRaw
  | replyRaw (decoded : Option String)
deriving Repr, DecidableEq

/-- Outcome of one iteration of `_send_command_loop`.  `reported msg`: the
iteration printed `msg` and continued.  `backoffSleep`: the `except
IndexError` clause ran, sleeping 0.5 s before continuing.  `crash`: an
exception escaped both handlers and terminated the sender thread. -/
inductive SendOutcome where
  | reported (msg : String)
  | backoffSleep
  | crash
deriving Repr, DecidableEq

/-- Embeds one iteration of the body of `_send_command_loop`, with Python
exception flow explicit.  `deque.pop()` on an empty queue raises
IndexError, caught by the outer handler (`backoffSleep`).  On a timeout
`answer` is None, so `answer[Raw]` raises TypeError, caught by the inner
`except TypeError` which prints the unknown message and continues.  On a
reply with no Raw layer, `answer[Raw]` raises IndexError, which the inner
`except TypeError` does not catch but the outer `except IndexError` does
(`backoffSleep`).  On an undecodable payload, `.decode()` raises
UnicodeDecodeError, which neither handler catches (`crash`). -/
def send_iteration (q : List String) (net : NetReply) : List String × SendOutcome :=
  match queue_pop q with
  | none => (q, SendOutcome.backoffSleep)
  | some (cmd, rest) =>
    match net with
    | NetReply.timeout => (rest, SendOutcome.reported ("EXE " ++ cmd ++ ": unknown"))
    | NetReply.replyNoRaw => (rest, SendOutcome.backoffSleep)
    | NetReply.replyRaw none => (rest, SendOutcome.crash)
    | NetReply.replyRaw (some txt) =>
        (rest, SendOutcome.reported ("EXE " ++ cmd ++ ": " ++ txt))

/-- Statement form of the change-detection property of the four axis
handlers: an rc command is appended if and only if the freshly normalized
value differs from the stored one, the appended command encodes the
current values of all four axes, and a handler whose value is unchanged
leaves the whole state untouched. -/
def emits_iff_changed_prop (raw : Int) (s : CtrlState) : Prop :=
  (((set_roll raw s).command_queue ≠ s.command_queue ↔
      s.axis_state.roll ≠ normalize raw) ∧
    (s.axis_state.roll ≠ normalize raw →
      (set_roll raw s).command_queue = s.command_queue ++
        ["rc " ++ toString (normalize raw) ++ " " ++ toString s.axis_state.pitch ++
          " " ++ toString s.axis_state.quota ++ " " ++ toString s.axis_state.yaw]) ∧
    (s.axis_state.roll = normalize raw → set_roll raw s = s)) ∧
  (((set_pitch raw s).command_queue ≠ s.command_queue ↔
      s.axis_state.pitch ≠ -(normalize raw)) ∧
    (s.axis_state.pitch ≠ -(normalize raw) →
      (set_pitch raw s).command_queue = s.command_queue ++
        ["rc " ++ toString s.axis_state.roll ++ " " ++ toString (-(normalize raw)) ++
          " " ++ toString s.axis_state.quota ++ " " ++ toString s.axis_state.yaw]) ∧
    (s.axis_state.pitch = -(normalize raw) → set_pitch raw s = s)) ∧
  (((set_quota raw s).command_queue ≠ s.command_queue ↔
      s.axis_state.quota ≠ -(normalize raw)) ∧
    (s.axis_state.quota ≠ -(normalize raw) →
      (set_quota raw s).command_queue = s.command_queue ++
        ["rc " ++ toString s.axis_state.roll ++ " " ++ toString s.axis_state.pitch ++
          " " ++ toString (-(normalize raw)) ++ " " ++ toString s.axis_state.yaw]) ∧
    (s.axis_state.quota = -(normalize raw) → set_quota raw s = s)) ∧
  (((set_yaw raw s).command_queue ≠ s.command_queue ↔
      s.axis_state.yaw ≠ normalize raw) ∧
    (s.axis_state.yaw ≠ normalize raw →
      (set_yaw raw s).command_queue = s.command_queue ++
        ["rc " ++ toString s.axis_state.roll ++ " " ++ toString s.axis_state.pitch ++
          " " ++ toString s.axis_state.quota ++ " " ++ toString (normalize raw)]) ∧
    (s.axis_state.yaw = normalize raw → set_yaw raw s = s))

/-- Statement form of the amended normalization property: each handler
stores the truncation toward zero of the exact quotient, with the sign
inverted for quota and pitch. -/
def trunc_normalization_prop (raw : Int) (s : CtrlState) : Prop :=
  (set_roll raw s).axis_state.roll = spec_trunc_normalize raw ∧
  (set_yaw raw s).axis_state.yaw = spec_trunc_normalize raw ∧
  (set_quota raw s).axis_state.quota = -(spec_trunc_normalize raw) ∧
  (set_pitch raw s).axis_state.pitch = -(spec_trunc_normalize raw)

/-- Statement form of the range invariant: the initial axis state is in
range, and each of the four handlers keeps it in range. -/
def axis_range_prop (raw : Int) (s : CtrlState) : Prop :=
  axis_inv init_state.axis_state ∧
  axis_inv (set_roll raw s).axis_state ∧
  axis_inv (set_pitch raw s).axis_state ∧
  axis_inv (set_quota raw s).axis_state ∧
  axis_inv (set_yaw raw s).axis_state

/-- Appending one element never yields the same list. -/
theorem append_singleton_ne {α : Type} (l : List α) (x : α) : l ++ [x] ≠ l := by
  intro hcontra
  have hlen := congrArg List.length hcontra
  simp at hlen

/-- The normalized value of a raw reading in the hardware range is between
-100 and 100. -/
theorem normalize_bound (raw : Int) (h1 : -32768 ≤ raw) (h2 : raw ≤ 32767) :
    -100 ≤ normalize raw ∧ normalize raw ≤ 100 := by
  have h4 : ((raw * 100).tdiv 32767).natAbs = (raw * 100).natAbs / 32767 :=
    Int.natAbs_tdiv (raw * 100) 32767
  have h3 : (raw * 100).natAbs = raw.natAbs * 100 := by
    rw [Int.natAbs_mul]; rfl
  unfold normalize AXIS_MAX_VAL
  omega

/-- Truncating integer division by 32767 is the floor of the exact
quotient for a nonnegative dividend and its ceiling for a negative one. -/
theorem tdiv_eq_trunc (n : Int) :
    n.tdiv 32767 = if 0 ≤ n then ⌊(n : ℚ) / (32767 : ℚ)⌋
      else ⌈(n : ℚ) / (32767 : ℚ)⌉ := by
  by_cases hn : 0 ≤ n
  · rw [if_pos hn, Int.tdiv_eq_ediv hn (by norm_num)]
    have h5 := Rat.floor_intCast_div_natCast n 32767
    push_cast at h5 ⊢
    omega
  · rw [if_neg hn]
    have hneg : n.tdiv 32767 = -((-n).tdiv 32767) := by
      rw [← Int.neg_tdiv]; ring_nf
    rw [hneg, Int.tdiv_eq_ediv (by omega) (by norm_num)]
    have hceil : ⌈(n : ℚ) / (32767 : ℚ)⌉ = -⌊-((n : ℚ) / (32767 : ℚ))⌋ := by
      rw [Int.floor_neg]; ring
    have h5 := Rat.floor_intCast_div_natCast (-n) 32767
    push_cast at h5
    rw [neg_div] at h5
    omega

/-- The code normalization agrees with exact truncation toward zero. -/
theorem normalize_eq_spec_trunc (raw : Int) :
    normalize raw = spec_trunc_normalize raw := by
  unfold normalize spec_trunc_normalize AXIS_MAX_VAL
  rw [show ((32767 : Int) : ℚ) = (32767 : ℚ) by norm_num, tdiv_eq_trunc (raw * 100)]
  by_cases hsign : 0 ≤ raw
  · rw [if_pos (by omega : (0 : Int) ≤ raw * 100), if_pos hsign]
  · rw [if_neg (by omega : ¬ (0 : Int) ≤ raw * 100), if_neg hsign]

-- draft of claim theorems, appended inside namespace for testing

/-- C1: the spec claims FCFS dispatch (pop returns the earliest-appended
command); the code pops from the same end `append` adds to, so with
takeoff enqueued before land the sender dispatches land first.  This
also contradicts the docstring of `_send_command_loop`. -/
theorem pop_returns_newest_not_oldest :
    send_iteration ["takeoff", "land"] (NetReply.replyRaw (some ("ok"))) =
      (["takeoff"], SendOutcome.reported ("EXE land: ok")) ∧
    queue_pop ["takeoff", "land"] = some ("land", ["takeoff"]) ∧
    ("land" : String) ≠ "takeoff" := by
  exact ⟨rfl, rfl, by decide⟩

/-- C2: a reply whose Raw payload does not decode raises
UnicodeDecodeError, which neither the inner `except TypeError` nor the
outer `except IndexError` catches: the sender task crashes instead of
reporting the unknown outcome and continuing. -/
theorem undecodable_reply_crashes_sender :
    send_iteration ["takeoff"] (NetReply.replyRaw none) = ([], SendOutcome.crash) ∧
    SendOutcome.crash ≠ SendOutcome.reported ("EXE takeoff: unknown") := by
  exact ⟨rfl, by decide⟩

/-- C3: a button index past the 10-entry button map (or an above-dead-zone
axis index past the 6-entry axis map) raises IndexError from tuple
indexing, which `except KeyError` does not catch: the event is fatal to
the dispatch loop, while an in-range button whose name is missing from
the event map is indeed ignored. -/
theorem out_of_range_index_is_fatal :
    handle_event (SDLEvent.buttonDown 10) init_state = (init_state, RecvOutcome.fatal) ∧
    handle_event (SDLEvent.axisMotion 6 10000) init_state = (init_state, RecvOutcome.fatal) ∧
    handle_event (SDLEvent.buttonDown 1) init_state = (init_state, RecvOutcome.ignored) := by
  exact ⟨rfl, rfl, rfl⟩

/-- C4: when no reply arrives within the timeout, the sender pops exactly
the most recent command, prints its report for the timed-out exchange,
does not re-enqueue the command, and the iteration ends normally. -/
theorem timeout_reports_and_drops (q : List String) (h : q ≠ []) :
    send_iteration q NetReply.timeout =
      (q.dropLast, SendOutcome.reported ("EXE " ++ q.getLast h ++ ": unknown")) := by
  unfold send_iteration queue_pop
  rw [List.getLast?_eq_getLast q h]

theorem timeout_reports_and_drops_witness :
    (["command", "takeoff"] : List String) ≠ [] ∧
    send_iteration ["command", "takeoff"] NetReply.timeout =
      ((["command", "takeoff"] : List String).dropLast,
        SendOutcome.reported ("EXE " ++
          (["command", "takeoff"] : List String).getLast (by decide) ++ ": unknown")) :=
  ⟨by decide, timeout_reports_and_drops ["command", "takeoff"] (by decide)⟩

/-- C5 counterexample: the claimed formula `round(rawValue * 100 /
AXIS_MAX)` disagrees with the code at raw value 16383: the stored roll
value is 49 (truncation), while rounding gives 50. -/
theorem normalize_is_not_round :
    (set_roll 16383 init_state).axis_state.roll = 49 ∧
    spec_round_normalize 16383 = 50 ∧
    (set_roll 16383 init_state).axis_state.roll ≠ spec_round_normalize 16383 := by
  have h1 : (set_roll 16383 init_state).axis_state.roll = 49 := rfl
  have h2 : spec_round_normalize 16383 = 50 := by
    norm_num [spec_round_normalize, AXIS_MAX_VAL, round_eq]
  exact ⟨h1, h2, by rw [h1, h2]; decide⟩

/-- C5 amended: every axis update stores the truncation toward zero of
`rawValue * 100 / AXIS_MAX`, with the sign inverted for quota and
pitch. -/
theorem normalize_truncates_toward_zero (raw : Int) (s : CtrlState)
    (h : AXIS_DEAD < |raw|) : trunc_normalization_prop raw s := by
  have hn := normalize_eq_spec_trunc raw
  unfold trunc_normalization_prop
  refine ⟨?_, ?_, ?_, ?_⟩
  · simp only [set_roll]
    split
    · simpa [dispatch_axis_update, queue_append] using hn
    · rename_i hc
      rw [not_ne_iff] at hc
      rw [hc, hn]
  · simp only [set_yaw]
    split
    · simpa [dispatch_axis_update, queue_append] using hn
    · rename_i hc
      rw [not_ne_iff] at hc
      rw [hc, hn]
  · simp only [set_quota]
    split
    · simpa [dispatch_axis_update, queue_append] using hn
    · rename_i hc
      rw [not_ne_iff] at hc
      rw [hc, hn]
  · simp only [set_pitch]
    split
    · simpa [dispatch_axis_update, queue_append] using hn
    · rename_i hc
      rw [not_ne_iff] at hc
      rw [hc, hn]

theorem normalize_truncates_toward_zero_witness :
    AXIS_DEAD < |(16383 : Int)| ∧ trunc_normalization_prop 16383 init_state :=
  ⟨by decide, normalize_truncates_toward_zero 16383 init_state (by decide)⟩

/-- C6: for above-dead-zone updates on any axis, an rc command is appended
if and only if the freshly normalized value differs from the stored one,
the appended command encodes the current values of all four axes, and an
unchanged value leaves the state untouched. -/
theorem axis_update_emits_iff_changed (raw : Int) (s : CtrlState)
    (h : AXIS_DEAD < |raw|) : emits_iff_changed_prop raw s := by
  unfold emits_iff_changed_prop
  refine ⟨?_, ?_, ?_, ?_⟩
  · by_cases hc : s.axis_state.roll = normalize raw
    · have hs : set_roll raw s = s := by simp [set_roll, hc]
      exact ⟨by rw [hs]; simp [hc], fun hne => absurd hc hne, fun _ => hs⟩
    · have hs : (set_roll raw s).command_queue = s.command_queue ++
          ["rc " ++ toString (normalize raw) ++ " " ++ toString s.axis_state.pitch ++
            " " ++ toString s.axis_state.quota ++ " " ++ toString s.axis_state.yaw] := by
        simp [set_roll, hc, dispatch_axis_update, queue_append, rc_command]
      exact ⟨by rw [hs]; exact iff_of_true (append_singleton_ne _ _) hc,
        fun _ => hs, fun heq => absurd heq hc⟩
  · by_cases hc : s.axis_state.pitch = -(normalize raw)
    · have hs : set_pitch raw s = s := by simp [set_pitch, hc]
      exact ⟨by rw [hs]; simp [hc], fun hne => absurd hc hne, fun _ => hs⟩
    · have hs : (set_pitch raw s).command_queue = s.command_queue ++
          ["rc " ++ toString s.axis_state.roll ++ " " ++ toString (-(normalize raw)) ++
            " " ++ toString s.axis_state.quota ++ " " ++ toString s.axis_state.yaw] := by
        simp [set_pitch, hc, dispatch_axis_update, queue_append, rc_command]
      exact ⟨by rw [hs]; exact iff_of_true (append_singleton_ne _ _) hc,
        fun _ => hs, fun heq => absurd heq hc⟩
  · by_cases hc : s.axis_state.quota = -(normalize raw)
    · have hs : set_quota raw s = s := by simp [set_quota, hc]
      exact ⟨by rw [hs]; simp [hc], fun hne => absurd hc hne, fun _ => hs⟩
    · have hs : (set_quota raw s).command_queue = s.command_queue ++
          ["rc " ++ toString s.axis_state.roll ++ " " ++ toString s.axis_state.pitch ++
            " " ++ toString (-(normalize raw)) ++ " " ++ toString s.axis_state.yaw] := by
        simp [set_quota, hc, dispatch_axis_update, queue_append, rc_command]
      exact ⟨by rw [hs]; exact iff_of_true (append_singleton_ne _ _) hc,
        fun _ => hs, fun heq => absurd heq hc⟩
  · by_cases hc : s.axis_state.yaw = normalize raw
    · have hs : set_yaw raw s = s := by simp [set_yaw, hc]
      exact ⟨by rw [hs]; simp [hc], fun hne => absurd hc hne, fun _ => hs⟩
    · have hs : (set_yaw raw s).command_queue = s.command_queue ++
          ["rc " ++ toString s.axis_state.roll ++ " " ++ toString s.axis_state.pitch ++
            " " ++ toString s.axis_state.quota ++ " " ++ toString (normalize raw)] := by
        simp [set_yaw, hc, dispatch_axis_update, queue_append, rc_command]
      exact ⟨by rw [hs]; exact iff_of_true (append_singleton_ne _ _) hc,
        fun _ => hs, fun heq => absurd heq hc⟩

theorem axis_update_emits_iff_changed_witness :
    AXIS_DEAD < |(16383 : Int)| ∧ emits_iff_changed_prop 16383 init_state :=
  ⟨by decide, axis_update_emits_iff_changed 16383 init_state (by decide)⟩

/-- C7: the shutdown path of `run` clears the queue and then enqueues the
landing command, leaving the queue holding exactly that command. -/
theorem shutdown_queue_is_exactly_land (s : CtrlState) :
    (run_shutdown s).command_queue = ["land"] := by
  simp [run_shutdown, land, queue_append]

/-- C8: an axis-motion event at or below the dead zone leaves the whole
controller state unchanged and enqueues nothing, whatever the axis
index. -/
theorem dead_zone_event_has_no_effect (idx : Nat) (value : Int) (s : CtrlState)
    (h : |value| ≤ AXIS_DEAD) :
    handle_event (SDLEvent.axisMotion idx value) s = (s, RecvOutcome.ignored) := by
  simp only [handle_event]
  rw [if_neg (not_lt.mpr h)]

theorem dead_zone_event_has_no_effect_witness :
    |(2500 : Int)| ≤ AXIS_DEAD ∧
    handle_event (SDLEvent.axisMotion 0 2500) init_state =
      (init_state, RecvOutcome.ignored) :=
  ⟨by decide, dead_zone_event_has_no_effect 0 2500 init_state (by decide)⟩

/-- C9: the initial axis state is within -100 to 100, and every axis
update with a raw value in the hardware range keeps every stored axis
value within -100 to 100. -/
theorem axis_state_in_range_invariant (raw : Int) (s : CtrlState)
    (hinv : axis_inv s.axis_state) (h1 : -32768 ≤ raw) (h2 : raw ≤ 32767) :
    axis_range_prop raw s := by
  obtain ⟨hb1, hb2⟩ := normalize_bound raw h1 h2
  obtain ⟨a1, a2, a3, a4, a5, a6, a7, a8⟩ := hinv
  unfold axis_range_prop
  refine ⟨by decide, ?_, ?_, ?_, ?_⟩
  · simp only [set_roll]
    split
    · exact ⟨hb1, hb2, a3, a4, a5, a6, a7, a8⟩
    · exact ⟨a1, a2, a3, a4, a5, a6, a7, a8⟩
  · simp only [set_pitch]
    split
    · exact ⟨a1, a2, a3, a4, a5, a6,
        by show (-100 : Int) ≤ -(normalize raw); omega,
        by show -(normalize raw) ≤ (100 : Int); omega⟩
    · exact ⟨a1, a2, a3, a4, a5, a6, a7, a8⟩
  · simp only [set_quota]
    split
    · exact ⟨a1, a2,
        by show (-100 : Int) ≤ -(normalize raw); omega,
        by show -(normalize raw) ≤ (100 : Int); omega, a5, a6, a7, a8⟩
    · exact ⟨a1, a2, a3, a4, a5, a6, a7, a8⟩
  · simp only [set_yaw]
    split
    · exact ⟨a1, a2, a3, a4, hb1, hb2, a7, a8⟩
    · exact ⟨a1, a2, a3, a4, a5, a6, a7, a8⟩

theorem axis_state_in_range_invariant_witness :
    axis_inv init_state.axis_state ∧ (-32768 : Int) ≤ -32768 ∧
    (-32768 : Int) ≤ 32767 ∧ axis_range_prop (-32768) init_state :=
  ⟨by decide, by decide, by decide,
    axis_state_in_range_invariant (-32768) init_state (by decide) (by decide) (by decide)⟩

/-- C10: a reply with no Raw payload layer raises IndexError at the
payload lookup, absorbed by the same `except IndexError` handler that
covers the empty queue: the popped command is gone, the outcome is the
0.5 s backoff sleep exactly as for an empty queue, and no success or
unknown report is printed. -/
theorem no_raw_reply_backoff (q : List String) (h : q ≠ []) :
    send_iteration q NetReply.replyNoRaw = (q.dropLast, SendOutcome.backoffSleep) ∧
    send_iteration [] NetReply.replyNoRaw = ([], SendOutcome.backoffSleep) ∧
    (send_iteration q NetReply.replyNoRaw).2 ≠
      SendOutcome.reported ("EXE " ++ q.getLast h ++ ": unknown") := by
  have hq : send_iteration q NetReply.replyNoRaw =
      (q.dropLast, SendOutcome.backoffSleep) := by
    unfold send_iteration queue_pop
    rw [List.getLast?_eq_getLast q h]
  refine ⟨hq, rfl, ?_⟩
  rw [hq]
  exact fun hcon => SendOutcome.noConfusion hcon

theorem no_raw_reply_backoff_witness :
    (["land"] : List String) ≠ [] ∧
    (send_iteration ["land"] NetReply.replyNoRaw =
      ((["land"] : List String).dropLast, SendOutcome.backoffSleep) ∧
    send_iteration [] NetReply.replyNoRaw = ([], SendOutcome.backoffSleep) ∧
    (send_iteration ["land"] NetReply.replyNoRaw).2 ≠
      SendOutcome.reported ("EXE " ++ (["land"] : List String).getLast (by decide) ++ ": unknown")) :=
  ⟨by decide, no_raw_reply_backoff ["land"] (by decide)⟩

end Joy
